import Mathlib

/-!
Verification of `map.py` (NihonMapMarker): a script that builds a folium map
of Japan from an Excel sheet of points and a GeoJSON boundary polygon.

Shallow embedding notes:
* A spreadsheet cell is a `CellValue`; an empty cell read by pandas is `nan`.
  Python truthiness (`bool(...)`) is `truthy`; `pd.notnull` is `notnull`.
* A pandas `DataFrame` is the column-name list plus the rows of cells; a row
  access `row[c]` / `c in row` / `row.get c d` is `getCell` over the pairing
  of column names with the cells of the row.
* Layers added to the folium map (tile layer, mask GeoJson, markers, circles)
  are the inductive `Layer`; the folium map object is `MapCanvas`, whose
  option mutations (`maxBounds`, `minZoom`, `maxZoom`) are collapsed into the
  final record the function returns.
* Exceptions (`KeyError` from `row["lat"]`, `IndexError`/`KeyError` from
  `japan_geo["features"][0]...`) become `Except String`.
-/

namespace NihonMapMarker

/-- A spreadsheet cell value as produced by `pd.read_excel`: a string, a
number, a boolean, or `NaN` (an empty cell). -/
inductive CellValue where
  | str (s : String)
  | num (q : ℚ)
  | boolean (b : Bool)
  | nan
deriving DecidableEq, Repr

/-- Python truthiness `bool(v)` of a cell value.  Note `bool(float("nan"))`
is `True` in Python: `NaN` is truthy. -/
def truthy : CellValue → Bool
  | .str s => s ≠ ""
  | .num q => q ≠ 0
  | .boolean b => b
  | .nan => true

/-- `pd.notnull v`: false exactly on the null/NaN cell. -/
def notnull : CellValue → Bool
  | .nan => false
  | _ => true

/-- The result of `pd.read_excel`: the column labels and the data rows
(each row lists its cells in column order). -/
structure DataFrame where
  columns : List String
  cells : List (List CellValue)
deriving DecidableEq, Repr

/-- A GeoJSON coordinate pair `[longitude, latitude]`. -/
abbrev Coord := ℚ × ℚ

/-- A GeoJSON linear ring: a list of coordinate pairs. -/
abbrev Ring := List Coord

/-- The `geometry` member of a GeoJSON feature (a polygon: a list of rings). -/
structure Geometry where
  coordinates : List Ring
deriving DecidableEq, Repr

/-- A GeoJSON feature. -/
structure Feature where
  geometry : Geometry
deriving DecidableEq, Repr

/-- The parsed GeoJSON document (`json.load` of the boundary file). -/
structure GeoJsonDoc where
  features : List Feature
deriving DecidableEq, Repr

/-- A folium layer added to the map. -/
inductive Layer where
  | tileLayer (tiles attr name : String) (overlay control : Bool)
  | geoJson (outerRing : Ring) (holes : List Ring)
      (name fillColor color : String) (fillOpacity weight : ℚ)
  | marker (lat lon tooltip icon_color : CellValue)
  | circle (lat lon : CellValue) (radius : ℚ) (color : CellValue)
      (fill : Bool) (fill_opacity : ℚ)
deriving DecidableEq, Repr

/-- The folium map object, with its configuration and the ordered list of
layers added to it. -/
structure MapCanvas where
  location : List ℚ
  zoom_start : Int
  control_scale : Bool
  prefer_canvas : Bool
  zoom_animation : Bool
  max_bounds : Bool
  zoom_control : Bool
  maxBounds : List (List ℚ)
  minZoom : Int
  maxZoom : Int
  layers : List Layer
deriving DecidableEq, Repr

/-- Access a cell of a row by column label: the pandas `row[c]` (as an
`Option`; `none` is the `KeyError` case, i.e. the column is absent).
`(getCell cols row c).isSome` is the pandas membership test `c in row`. -/
def getCell (cols : List String) (row : List CellValue) (c : String) :
    Option CellValue :=
  (List.find? (fun p => p.1 == c) (cols.zip row)).map Prod.snd

/-- Line 93: `row["color"] if ("color" in row and pd.notnull(row["color"]))
else "blue"`. -/
def icon_color_of (cols : List String) (row : List CellValue) : CellValue :=
  match getCell cols row "color" with
  | some v => if notnull v then v else .str "blue"
  | none => .str "blue"

/-- Line 96: `bool(row.get("show_circle", False))`. -/
def show_circle_of (cols : List String) (row : List CellValue) : Bool :=
  truthy ((getCell cols row "show_circle").getD (.boolean false))

/-- Line 98: `row["circle_color"] if ("circle_color" in row and
pd.notnull(row["circle_color"])) else "blue"`. -/
def circle_color_of (cols : List String) (row : List CellValue) : CellValue :=
  match getCell cols row "circle_color" with
  | some v => if notnull v then v else .str "blue"
  | none => .str "blue"

/-- Lines 86-115, one iteration of the row loop: the layers this row adds to
the map, or the `KeyError` raised by `row["lat"]` / `row["lon"]` /
`row["info"]`. -/
def rowLayers (cols : List String) (row : List CellValue) :
    Except String (List Layer) :=
  match getCell cols row "lat" with
  | none => .error "KeyError: lat"
  | some lat =>
  match getCell cols row "lon" with
  | none => .error "KeyError: lon"
  | some lon =>
  match getCell cols row "info" with
  | none => .error "KeyError: info"
  | some label =>
    let markerL := Layer.marker lat lon label (icon_color_of cols row)
    if show_circle_of cols row then
      .ok [markerL,
           Layer.circle lat lon 10000 (circle_color_of cols row) true
             (1/10 : ℚ)]
    else
      .ok [markerL]

/-- The whole `df.iterrows()` loop: the layers added by all rows in order,
or the first error raised. -/
def rowsLayers (cols : List String) :
    List (List CellValue) → Except String (List Layer)
  | [] => .ok []
  | r :: rs =>
    match rowLayers cols r with
    | .error e => .error e
    | .ok ls =>
      match rowsLayers cols rs with
      | .error e => .error e
      | .ok rest => .ok (ls ++ rest)

/-- `japan_geo["features"][0]["geometry"]["coordinates"][0]` (line 67):
the boundary ring, or the index error raised when the document lacks a
feature or the geometry lacks a ring. -/
def extractBoundaryRing (geo : GeoJsonDoc) : Except String Ring :=
  match geo.features with
  | [] => .error "IndexError: features"
  | f :: _ =>
    match f.geometry.coordinates with
    | [] => .error "IndexError: coordinates"
    | r :: _ => .ok r

/-- The hardcoded world-box outer ring of the mask (line 64). -/
def world_ring : Ring :=
  [(180, 90), (180, -90), (-180, -90), (-180, 90), (180, 90)]

/-- The 国土地理院 (GSI) base tile layer (lines 44-50). -/
def gsi_tile_layer : Layer :=
  .tileLayer "https://cyberjapandata.gsi.go.jp/xyz/std/{z}/{x}/{y}.png"
    "地図出典：国土地理院" "国土地理院タイル" false true

/-- Lines 58-80: the mask `folium.GeoJson` layer built from the boundary
ring — world box outside, the boundary ring as the hole, gray fill of
opacity 0.8 and stroke weight 0. -/
def mask_geojson (boundary : Ring) : Layer :=
  .geoJson world_ring [boundary] "マスク" "gray" "gray" (8/10 : ℚ) 0

/-- Default `center` parameter of `create_japan_map_from_excel` (line 7). -/
def default_center : List ℚ := [362048/10000, 1382529/10000]

/-- Default `zoom_start` parameter of `create_japan_map_from_excel`. -/
def default_zoom_start : Int := 5

/-- Lines 7-120, `create_japan_map_from_excel`: build the map from the
parsed spreadsheet and the parsed GeoJSON document.  The staged option
mutations of lines 39-41 are collapsed into the returned record; the layer
list is the order layers are added: tile layer, mask, then the per-row
markers and circles. -/
def create_japan_map_from_excel (df : DataFrame) (geo : GeoJsonDoc)
    (center : List ℚ) (zoom_start : Int) : Except String MapCanvas :=
  match extractBoundaryRing geo with
  | .error e => .error e
  | .ok ring =>
    match rowsLayers df.columns df.cells with
    | .error e => .error e
    | .ok pointLayers =>
      .ok { location := center
            zoom_start := zoom_start
            control_scale := true
            prefer_canvas := true
            zoom_animation := true
            max_bounds := true
            zoom_control := true
            maxBounds := [[20, 122], [46, 154]]
            minZoom := 5
            maxZoom := 12
            layers := [gsi_tile_layer, mask_geojson ring] ++ pointLayers }

/-- `main` (lines 123-145) up to the `save` call: it calls
`create_japan_map_from_excel` with the default `center` and `zoom_start`. -/
def main_run (df : DataFrame) (geo : GeoJsonDoc) : Except String MapCanvas :=
  create_japan_map_from_excel df geo default_center default_zoom_start

/-- Whether `main` reaches `japan_map.save(...)`: the output file is written
iff `create_japan_map_from_excel` returned normally. -/
def output_written (df : DataFrame) (geo : GeoJsonDoc) : Bool :=
  match main_run df geo with
  | .ok _ => true
  | .error _ => false

/-- Is this layer a `folium.Marker`? -/
def Layer.isMarker : Layer → Bool
  | .marker _ _ _ _ => true
  | _ => false

/-- Is this layer a `folium.Circle`? -/
def Layer.isCircle : Layer → Bool
  | .circle _ _ _ _ _ _ => true
  | _ => false

/-- Is this layer a `folium.GeoJson` (the mask)? -/
def Layer.isGeoJson : Layer → Bool
  | .geoJson _ _ _ _ _ _ _ => true
  | _ => false

/-- The marker layers of a layer list, in order. -/
def markersOf (ls : List Layer) : List Layer := ls.filter Layer.isMarker

/-- The circle layers of a layer list, in order. -/
def circlesOf (ls : List Layer) : List Layer := ls.filter Layer.isCircle

/-- The `folium.GeoJson` (mask) layers of a layer list, in order. -/
def masksOf (ls : List Layer) : List Layer := ls.filter Layer.isGeoJson

/-- The (outer ring, hole rings) of a mask layer. -/
def Layer.maskRings : Layer → Option (Ring × List Ring)
  | .geoJson o h _ _ _ _ _ => some (o, h)
  | _ => none

/-- The marker that `rowLayers` builds for a row (cells read with `getD
CellValue.nan`, which agrees with the actual cells whenever the required
columns are present). -/
def markerOfRow (cols : List String) (row : List CellValue) : Layer :=
  .marker ((getCell cols row "lat").getD .nan)
    ((getCell cols row "lon").getD .nan)
    ((getCell cols row "info").getD .nan)
    (icon_color_of cols row)

/-- The circle that `rowLayers` builds for a circle-enabled row. -/
def circleOfRow (cols : List String) (row : List CellValue) : Layer :=
  .circle ((getCell cols row "lat").getD .nan)
    ((getCell cols row "lon").getD .nan)
    10000 (circle_color_of cols row) true (1/10 : ℚ)

/-- Is the coordinate pair `(longitude, latitude)` inside the world box
(longitude in `[-180, 180]`, latitude in `[-90, 90]`)? -/
def inWorldBox (p : Coord) : Bool :=
  decide (-180 ≤ p.1) && decide (p.1 ≤ 180) &&
  decide (-90 ≤ p.2) && decide (p.2 ≤ 90)

/-- Do all hole-ring vertices of all mask layers of the map lie in the
world box? -/
def holeVerticesInBox (m : MapCanvas) : Bool :=
  (m.layers.filterMap Layer.maskRings).all
    (fun pr => pr.2.all (fun ring => ring.all inWorldBox))

/-! ## Basic lemmas about cell access and the row loop -/

lemma getCell_nil_left (row : List CellValue) (c : String) :
    getCell [] row c = none := by
  simp [getCell]

lemma getCell_nil_right (cols : List String) (c : String) :
    getCell cols [] c = none := by
  cases cols <;> simp [getCell]

lemma getCell_cons_cons (c0 : String) (cs : List String) (v : CellValue)
    (vs : List CellValue) (c : String) :
    getCell (c0 :: cs) (v :: vs) c =
      if c0 == c then some v else getCell cs vs c := by
  simp only [getCell, List.zip, List.zip_cons_cons, List.find?]
  split <;> simp_all [List.zip]

lemma getCell_eq_none_of_not_mem (cols : List String) (row : List CellValue)
    (c : String) (hc : c ∉ cols) : getCell cols row c = none := by
  induction cols generalizing row with
  | nil => exact getCell_nil_left row c
  | cons c0 cs ih =>
    cases row with
    | nil => exact getCell_nil_right _ c
    | cons v vs =>
      rw [getCell_cons_cons]
      simp only [List.mem_cons, not_or] at hc
      have hf : (c0 == c) = false := by
        simp only [beq_eq_false_iff_ne, ne_eq]
        exact fun h => hc.1 h.symm
      rw [hf]
      simpa using ih vs hc.2

lemma getCell_isSome_of_mem (cols : List String) (row : List CellValue)
    (c : String) (hc : c ∈ cols) (hlen : cols.length ≤ row.length) :
    (getCell cols row c).isSome = true := by
  induction cols generalizing row with
  | nil => cases hc
  | cons c0 cs ih =>
    cases row with
    | nil => simp at hlen
    | cons v vs =>
      rw [getCell_cons_cons]
      by_cases h : (c0 == c) = true
      · simp [h]
      · have hf : (c0 == c) = false := by simpa using h
        simp only [hf, Bool.false_eq_true, if_false]
        have hcs : c ∈ cs := by
          rcases List.mem_cons.mp hc with h1 | h1
          · exact absurd h1.symm (by simpa using hf)
          · exact h1
        exact ih vs hcs (Nat.le_of_succ_le_succ (by simpa using hlen))

lemma rowLayers_of_some (cols : List String) (row : List CellValue)
    (lat lon label : CellValue)
    (hlat : getCell cols row "lat" = some lat)
    (hlon : getCell cols row "lon" = some lon)
    (hinfo : getCell cols row "info" = some label) :
    rowLayers cols row =
      .ok (if show_circle_of cols row then
             [markerOfRow cols row, circleOfRow cols row]
           else
             [markerOfRow cols row]) := by
  simp only [rowLayers, hlat, hlon, hinfo, markerOfRow, circleOfRow]
  split <;> simp [hlat, hlon, hinfo]

lemma markersOf_rowList (cols : List String) (row : List CellValue) :
    markersOf (if show_circle_of cols row then
                 [markerOfRow cols row, circleOfRow cols row]
               else
                 [markerOfRow cols row]) = [markerOfRow cols row] := by
  split <;> simp [markersOf, List.filter, markerOfRow, circleOfRow,
    Layer.isMarker]

lemma circlesOf_rowList (cols : List String) (row : List CellValue) :
    circlesOf (if show_circle_of cols row then
                 [markerOfRow cols row, circleOfRow cols row]
               else
                 [markerOfRow cols row]) =
      if show_circle_of cols row then [circleOfRow cols row] else [] := by
  split <;> simp [circlesOf, List.filter, markerOfRow, circleOfRow,
    Layer.isCircle]

lemma markersOf_append (a b : List Layer) :
    markersOf (a ++ b) = markersOf a ++ markersOf b :=
  List.filter_append a b

lemma circlesOf_append (a b : List Layer) :
    circlesOf (a ++ b) = circlesOf a ++ circlesOf b :=
  List.filter_append a b

lemma rowsLayers_ok (cols : List String) (rows : List (List CellValue))
    (h : ∀ r ∈ rows, (getCell cols r "lat").isSome = true ∧
           (getCell cols r "lon").isSome = true ∧
           (getCell cols r "info").isSome = true) :
    ∃ L, rowsLayers cols rows = .ok L ∧
      markersOf L = rows.map (markerOfRow cols) ∧
      circlesOf L = (rows.filter (show_circle_of cols)).map (circleOfRow cols) := by
  induction rows with
  | nil => exact ⟨[], rfl, rfl, rfl⟩
  | cons r rs ih =>
    obtain ⟨h1, h2, h3⟩ := h r (List.mem_cons_self r rs)
    obtain ⟨lat, hlat⟩ := Option.isSome_iff_exists.mp h1
    obtain ⟨lon, hlon⟩ := Option.isSome_iff_exists.mp h2
    obtain ⟨label, hinfo⟩ := Option.isSome_iff_exists.mp h3
    obtain ⟨L, hL, hm, hc⟩ := ih (fun r' hr' => h r' (List.mem_cons_of_mem _ hr'))
    refine ⟨(if show_circle_of cols r then
               [markerOfRow cols r, circleOfRow cols r]
             else
               [markerOfRow cols r]) ++ L, ?_, ?_, ?_⟩
    · simp [rowsLayers, rowLayers_of_some cols r lat lon label hlat hlon hinfo, hL]
    · rw [markersOf_append, markersOf_rowList, hm, List.map_cons]
      rfl
    · rw [circlesOf_append, circlesOf_rowList, hc, List.filter_cons]
      split <;> simp

lemma rowLayers_points (cols : List String) (r : List CellValue)
    (ls : List Layer) (h : rowLayers cols r = .ok ls) :
    ∀ l ∈ ls, l.isMarker = true ∨ l.isCircle = true := by
  cases h1 : getCell cols r "lat" with
  | none => simp [rowLayers, h1] at h
  | some lat =>
  cases h2 : getCell cols r "lon" with
  | none => simp [rowLayers, h1, h2] at h
  | some lon =>
  cases h3 : getCell cols r "info" with
  | none => simp [rowLayers, h1, h2, h3] at h
  | some label =>
    simp only [rowLayers, h1, h2, h3] at h
    split at h <;>
      (injection h with h; subst h; intro l hl;
       simp only [List.mem_cons, List.mem_singleton, List.not_mem_nil] at hl) <;>
      rcases hl with rfl | hl <;>
      simp_all [Layer.isMarker, Layer.isCircle]

lemma rowsLayers_points (cols : List String) (rows : List (List CellValue))
    (L : List Layer) (h : rowsLayers cols rows = .ok L) :
    ∀ l ∈ L, l.isMarker = true ∨ l.isCircle = true := by
  induction rows generalizing L with
  | nil =>
    simp only [rowsLayers] at h
    injection h with h
    subst h
    simp
  | cons r rs ih =>
    simp only [rowsLayers] at h
    cases h1 : rowLayers cols r with
    | error e => rw [h1] at h; cases h
    | ok ls =>
      rw [h1] at h
      cases h2 : rowsLayers cols rs with
      | error e => rw [h2] at h; cases h
      | ok rest =>
        rw [h2] at h
        injection h with h
        subst h
        intro l hl
        rcases List.mem_append.mp hl with hl | hl
        · exact rowLayers_points cols r ls h1 l hl
        · exact ih rest h2 l hl

lemma point_maskRings_none (l : Layer)
    (h : l.isMarker = true ∨ l.isCircle = true) : l.maskRings = none := by
  cases l <;> simp_all [Layer.isMarker, Layer.isCircle, Layer.maskRings]

lemma point_isGeoJson_false (l : Layer)
    (h : l.isMarker = true ∨ l.isCircle = true) : l.isGeoJson = false := by
  cases l <;> simp_all [Layer.isMarker, Layer.isCircle, Layer.isGeoJson]

lemma create_ok (df : DataFrame) (geo : GeoJsonDoc) (center : List ℚ)
    (zs : Int) (ring : Ring) (L : List Layer)
    (h1 : extractBoundaryRing geo = .ok ring)
    (h2 : rowsLayers df.columns df.cells = .ok L) :
    create_japan_map_from_excel df geo center zs =
      .ok { location := center
            zoom_start := zs
            control_scale := true
            prefer_canvas := true
            zoom_animation := true
            max_bounds := true
            zoom_control := true
            maxBounds := [[20, 122], [46, 154]]
            minZoom := 5
            maxZoom := 12
            layers := [gsi_tile_layer, mask_geojson ring] ++ L } := by
  simp [create_japan_map_from_excel, h1, h2]

lemma create_ok_inv (df : DataFrame) (geo : GeoJsonDoc) (center : List ℚ)
    (zs : Int) (m : MapCanvas)
    (h : create_japan_map_from_excel df geo center zs = .ok m) :
    ∃ ring L, extractBoundaryRing geo = .ok ring ∧
      rowsLayers df.columns df.cells = .ok L ∧
      m = { location := center
            zoom_start := zs
            control_scale := true
            prefer_canvas := true
            zoom_animation := true
            max_bounds := true
            zoom_control := true
            maxBounds := [[20, 122], [46, 154]]
            minZoom := 5
            maxZoom := 12
            layers := [gsi_tile_layer, mask_geojson ring] ++ L } := by
  cases h1 : extractBoundaryRing geo with
  | error e => simp [create_japan_map_from_excel, h1] at h
  | ok ring =>
    cases h2 : rowsLayers df.columns df.cells with
    | error e => simp [create_japan_map_from_excel, h1, h2] at h
    | ok L =>
      refine ⟨ring, L, rfl, rfl, ?_⟩
      simp [create_japan_map_from_excel, h1, h2] at h
      exact h.symm

lemma extractBoundaryRing_of_shape (geo : GeoJsonDoc) (f : Feature)
    (fs : List Feature) (ring : Ring) (rs : List Ring)
    (hf : geo.features = f :: fs)
    (hc : f.geometry.coordinates = ring :: rs) :
    extractBoundaryRing geo = .ok ring := by
  simp [extractBoundaryRing, hf, hc]

lemma create_maskRings (df : DataFrame) (geo : GeoJsonDoc) (center : List ℚ)
    (zs : Int) (m : MapCanvas) (ring : Ring)
    (hring : extractBoundaryRing geo = .ok ring)
    (h : create_japan_map_from_excel df geo center zs = .ok m) :
    m.layers.filterMap Layer.maskRings = [(world_ring, [ring])] := by
  obtain ⟨ring', L, h1, h2, rfl⟩ := create_ok_inv df geo center zs m h
  rw [hring] at h1
  injection h1 with h1
  subst h1
  simp only [List.filterMap_append]
  have hL : L.filterMap Layer.maskRings = [] := by
    rw [List.filterMap_eq_nil_iff]
    intro l hl
    exact point_maskRings_none l (rowsLayers_points df.columns df.cells L h2 l hl)
  rw [hL]
  simp [gsi_tile_layer, mask_geojson, Layer.maskRings, List.filterMap]

lemma create_masksOf (df : DataFrame) (geo : GeoJsonDoc) (center : List ℚ)
    (zs : Int) (m : MapCanvas) (ring : Ring)
    (hring : extractBoundaryRing geo = .ok ring)
    (h : create_japan_map_from_excel df geo center zs = .ok m) :
    masksOf m.layers = [mask_geojson ring] := by
  obtain ⟨ring', L, h1, h2, rfl⟩ := create_ok_inv df geo center zs m h
  rw [hring] at h1
  injection h1 with h1
  subst h1
  simp only [masksOf, List.filter_append]
  have hL : L.filter Layer.isGeoJson = [] := by
    rw [List.filter_eq_nil_iff]
    intro l hl
    simp [point_isGeoJson_false l (rowsLayers_points df.columns df.cells L h2 l hl)]
  rw [hL]
  simp [gsi_tile_layer, mask_geojson, Layer.isGeoJson, List.filter]

/-! ## Concrete fixtures (used by witnesses and counterexamples) -/

/-- A small closed boundary ring inside the world box. -/
def ringSample : Ring := [(140, 40), (141, 40), (141, 41), (140, 40)]

/-- A minimal valid boundary document: one feature, one ring. -/
def geoSample : GeoJsonDoc := ⟨[⟨⟨[ringSample]⟩⟩]⟩

/-- A boundary document whose ring has a vertex outside the world box
(longitude 200). -/
def geoOutOfBox : GeoJsonDoc := ⟨[⟨⟨[[(200, 0)]]⟩⟩]⟩

/-- A one-row spreadsheet whose `show_circle` column exists but whose cell
in that column is empty, hence read by pandas as `NaN`. -/
def dfNanCircle : DataFrame :=
  ⟨["lat", "lon", "info", "show_circle"],
   [[.num 35, .num 139, .str "x", .nan]]⟩

/-- A two-row spreadsheet with every optional column: the first row leaves
the colors empty and the circle off, the second sets everything. -/
def dfTwo : DataFrame :=
  ⟨["lat", "lon", "info", "color", "show_circle", "circle_color"],
   [[.num 35, .num 139, .str "Tokyo", .nan, .boolean false, .nan],
    [.num 34, .num 135, .str "Osaka", .str "red", .boolean true, .str "green"]]⟩

/-- A headers-only spreadsheet (zero data rows) missing the `lat` column. -/
def dfNoLatEmpty : DataFrame := ⟨["lon", "info"], []⟩

/-- A one-row spreadsheet missing the `lat` column. -/
def dfNoLatRow : DataFrame := ⟨["lon", "info"], [[.num 139, .str "x"]]⟩

/-- The map produced from a spreadsheet with no columns and no rows together
with `geoSample`, at the default center and zoom. -/
def mapSample : MapCanvas :=
  { location := default_center
    zoom_start := 5
    control_scale := true
    prefer_canvas := true
    zoom_animation := true
    max_bounds := true
    zoom_control := true
    maxBounds := [[20, 122], [46, 154]]
    minZoom := 5
    maxZoom := 12
    layers := [gsi_tile_layer, mask_geojson ringSample] }

/-! ## Claims -/

/-- C1 (counterexample).  The claim says an empty `show_circle` cell yields
false and never gets a circle layer.  It is false: pandas reads an empty
cell of an existing `show_circle` column as `NaN`, Python `bool(NaN)` is
`True`, so `dfNanCircle` — whose only row has an empty `show_circle` cell —
gets a circle layer. -/
theorem show_circle_empty_cell_cex :
    show_circle_of dfNanCircle.columns
      [CellValue.num 35, CellValue.num 139, CellValue.str "x", CellValue.nan]
      = true ∧
    (create_japan_map_from_excel dfNanCircle geoSample default_center 5).map
        (fun m => circlesOf m.layers) =
      .ok [Layer.circle (.num 35) (.num 139) 10000 (.str "blue") true
            (1/10 : ℚ)] :=
  ⟨rfl, rfl⟩

/-- C1 (amended).  The coerced `show_circle` flag is false exactly when the
column is missing from the row or the cell holds a falsy value (`False`,
the number 0, or the empty string); every other cell value — including an
empty cell, which pandas reads as `NaN` and which Python treats as truthy —
yields true and therefore a circle layer. -/
theorem show_circle_coercion (cols : List String) (row : List CellValue) :
    show_circle_of cols row = false ↔
      getCell cols row "show_circle" = none ∨
      getCell cols row "show_circle" = some (.boolean false) ∨
      getCell cols row "show_circle" = some (.num 0) ∨
      getCell cols row "show_circle" = some (.str "") := by
  cases h : getCell cols row "show_circle" with
  | none => simp [show_circle_of, h, truthy]
  | some v => cases v <;> simp [show_circle_of, h, truthy]

/-- C2: for every spreadsheet whose required columns `lat`, `lon`, `info`
are all present (and whose rows are full, as pandas guarantees), and every
boundary document with a first ring, the marker layers of the output are
exactly one marker per data row, in spreadsheet row order, each placed at
the `lat`/`lon` cells of its row with the `info` cell as tooltip; in
particular the number of marker layers equals the number of data rows. -/
theorem marker_per_row (df : DataFrame) (geo : GeoJsonDoc) (center : List ℚ)
    (zs : Int)
    (hlat : "lat" ∈ df.columns) (hlon : "lon" ∈ df.columns)
    (hinfo : "info" ∈ df.columns)
    (hlen : ∀ r ∈ df.cells, df.columns.length ≤ r.length)
    (hgeo : ∃ ring, extractBoundaryRing geo = .ok ring) :
    (create_japan_map_from_excel df geo center zs).map
        (fun m => markersOf m.layers) =
      .ok (df.cells.map (markerOfRow df.columns)) ∧
    (create_japan_map_from_excel df geo center zs).map
        (fun m => (markersOf m.layers).length) =
      .ok df.cells.length := by
  obtain ⟨ring, hring⟩ := hgeo
  obtain ⟨L, hL, hm, hc⟩ := rowsLayers_ok df.columns df.cells (fun r hr =>
    ⟨getCell_isSome_of_mem _ _ _ hlat (hlen r hr),
     getCell_isSome_of_mem _ _ _ hlon (hlen r hr),
     getCell_isSome_of_mem _ _ _ hinfo (hlen r hr)⟩)
  rw [create_ok df geo center zs ring L hring hL]
  have hpre : markersOf [gsi_tile_layer, mask_geojson ring] = [] := by
    simp [markersOf, List.filter, gsi_tile_layer, mask_geojson, Layer.isMarker]
  constructor
  · simp only [Except.map, markersOf_append, hpre, hm, List.nil_append]
  · simp only [Except.map, markersOf_append, hpre, hm, List.nil_append,
      List.length_map]

/-- C2 witness: the two-row sample spreadsheet yields exactly its two
markers, in order. -/
theorem marker_per_row_witness :
    (create_japan_map_from_excel dfTwo geoSample default_center 5).map
        (fun m => markersOf m.layers) =
      .ok (dfTwo.cells.map (markerOfRow dfTwo.columns)) ∧
    (create_japan_map_from_excel dfTwo geoSample default_center 5).map
        (fun m => (markersOf m.layers).length) =
      .ok dfTwo.cells.length :=
  marker_per_row dfTwo geoSample default_center 5 (by decide) (by decide)
    (by decide) (by decide) ⟨ringSample, rfl⟩

/-- C3: under the same validity hypotheses as C2, the circle layers of the
output are exactly one circle per row whose coerced `show_circle` flag is
true, in row order, centered at the same `lat`/`lon` cells as the marker of
that row, with radius 10000, fill, fill opacity 0.1, and the color given by
the `circle_color` rule; rows with a false flag contribute no circle. -/
theorem circle_per_flagged_row (df : DataFrame) (geo : GeoJsonDoc)
    (center : List ℚ) (zs : Int)
    (hlat : "lat" ∈ df.columns) (hlon : "lon" ∈ df.columns)
    (hinfo : "info" ∈ df.columns)
    (hlen : ∀ r ∈ df.cells, df.columns.length ≤ r.length)
    (hgeo : ∃ ring, extractBoundaryRing geo = .ok ring) :
    (create_japan_map_from_excel df geo center zs).map
        (fun m => (markersOf m.layers, circlesOf m.layers)) =
      .ok (df.cells.map (markerOfRow df.columns),
           (df.cells.filter (show_circle_of df.columns)).map
             (circleOfRow df.columns)) := by
  obtain ⟨ring, hring⟩ := hgeo
  obtain ⟨L, hL, hm, hc⟩ := rowsLayers_ok df.columns df.cells (fun r hr =>
    ⟨getCell_isSome_of_mem _ _ _ hlat (hlen r hr),
     getCell_isSome_of_mem _ _ _ hlon (hlen r hr),
     getCell_isSome_of_mem _ _ _ hinfo (hlen r hr)⟩)
  rw [create_ok df geo center zs ring L hring hL]
  have hpreM : markersOf [gsi_tile_layer, mask_geojson ring] = [] := by
    simp [markersOf, List.filter, gsi_tile_layer, mask_geojson, Layer.isMarker]
  have hpreC : circlesOf [gsi_tile_layer, mask_geojson ring] = [] := by
    simp [circlesOf, List.filter, gsi_tile_layer, mask_geojson, Layer.isCircle]
  simp only [Except.map, markersOf_append, circlesOf_append, hpreM, hpreC,
    hm, hc, List.nil_append]

/-- C3 witness: of the two sample rows only the second has the flag set,
and exactly one circle appears, at the same coordinates as its marker. -/
theorem circle_per_flagged_row_witness :
    (create_japan_map_from_excel dfTwo geoSample default_center 5).map
        (fun m => (markersOf m.layers, circlesOf m.layers)) =
      .ok (dfTwo.cells.map (markerOfRow dfTwo.columns),
           (dfTwo.cells.filter (show_circle_of dfTwo.columns)).map
             (circleOfRow dfTwo.columns)) :=
  circle_per_flagged_row dfTwo geoSample default_center 5 (by decide)
    (by decide) (by decide) (by decide) ⟨ringSample, rfl⟩

/-- C4: whenever the boundary document has a first feature with a first
ring and the map is built, the single mask layer has the closed four-corner
world box as outer ring and that input ring, verbatim, as its only hole. -/
theorem mask_ring_roundtrip (geo : GeoJsonDoc) (f : Feature)
    (fs : List Feature) (ring : Ring) (rs : List Ring) (df : DataFrame)
    (center : List ℚ) (zs : Int) (m : MapCanvas)
    (hf : geo.features = f :: fs) (hc : f.geometry.coordinates = ring :: rs)
    (h : create_japan_map_from_excel df geo center zs = .ok m) :
    m.layers.filterMap Layer.maskRings = [(world_ring, [ring])] ∧
    world_ring = [(180, 90), (180, -90), (-180, -90), (-180, 90), (180, 90)] :=
  ⟨create_maskRings df geo center zs m ring
     (extractBoundaryRing_of_shape geo f fs ring rs hf hc) h, rfl⟩

/-- C4 witness: the sample boundary ring comes back verbatim as the hole of
the sample map. -/
theorem mask_ring_roundtrip_witness :
    mapSample.layers.filterMap Layer.maskRings = [(world_ring, [ringSample])] ∧
    world_ring = [(180, 90), (180, -90), (-180, -90), (-180, 90), (180, 90)] :=
  mask_ring_roundtrip geoSample ⟨⟨[ringSample]⟩⟩ [] ringSample [] ⟨[], []⟩
    default_center 5 mapSample rfl rfl rfl

/-- C5: a row whose `color` column is absent or whose `color` cell is null
gets icon color "blue", and likewise `circle_color` for circles; when the
cell is present and non-null its value is used unchanged. -/
theorem color_defaults (cols : List String) (row : List CellValue) :
    ((getCell cols row "color" = none ∨
        getCell cols row "color" = some .nan) →
      icon_color_of cols row = .str "blue") ∧
    (∀ v, getCell cols row "color" = some v → v ≠ .nan →
      icon_color_of cols row = v) ∧
    ((getCell cols row "circle_color" = none ∨
        getCell cols row "circle_color" = some .nan) →
      circle_color_of cols row = .str "blue") ∧
    (∀ v, getCell cols row "circle_color" = some v → v ≠ .nan →
      circle_color_of cols row = v) := by
  refine ⟨?_, ?_, ?_, ?_⟩
  · rintro (h | h) <;> simp [icon_color_of, h, notnull]
  · rintro v h hv
    have hn : notnull v = true := by cases v <;> simp_all [notnull]
    simp [icon_color_of, h, hn]
  · rintro (h | h) <;> simp [circle_color_of, h, notnull]
  · rintro v h hv
    have hn : notnull v = true := by cases v <;> simp_all [notnull]
    simp [circle_color_of, h, hn]

/-- C5 witness: a null `color` cell gives a blue marker; a present
`circle_color` cell keeps its value. -/
theorem color_defaults_witness :
    icon_color_of ["color", "circle_color"]
      [CellValue.nan, CellValue.str "red"] = .str "blue" ∧
    circle_color_of ["color", "circle_color"]
      [CellValue.nan, CellValue.str "red"] = .str "red" :=
  ⟨(color_defaults ["color", "circle_color"]
      [CellValue.nan, CellValue.str "red"]).1 (Or.inr rfl),
   (color_defaults ["color", "circle_color"]
      [CellValue.nan, CellValue.str "red"]).2.2.2
     (.str "red") rfl (by decide)⟩

/-- C6: every successfully built map carries the hardcoded pan-bound box
`[[20, 122], [46, 154]]`, minimum zoom 5, maximum zoom 12 — independent of
every parameter — while `center` and `zoom_start` are taken from the
caller; the run from `main`, which does not override them, centers the map
at `[36.2048, 138.2529]` with initial zoom 5. -/
theorem canvas_config (df : DataFrame) (geo : GeoJsonDoc) (center : List ℚ)
    (zs : Int) (m m2 : MapCanvas)
    (h : create_japan_map_from_excel df geo center zs = .ok m)
    (h2 : main_run df geo = .ok m2) :
    m.maxBounds = [[20, 122], [46, 154]] ∧ m.minZoom = 5 ∧ m.maxZoom = 12 ∧
    m.location = center ∧ m.zoom_start = zs ∧
    m2.maxBounds = [[20, 122], [46, 154]] ∧ m2.minZoom = 5 ∧
    m2.maxZoom = 12 ∧
    m2.location = [362048/10000, 1382529/10000] ∧ m2.zoom_start = 5 := by
  obtain ⟨ring, L, h1, hL, rfl⟩ := create_ok_inv df geo center zs m h
  obtain ⟨ring2, L2, h12, hL2, rfl⟩ :=
    create_ok_inv df geo default_center default_zoom_start m2 h2
  exact ⟨rfl, rfl, rfl, rfl, rfl, rfl, rfl, rfl, rfl, rfl⟩

/-- C6 witness: the sample map has the hardcoded bounds and the default
center and zoom. -/
theorem canvas_config_witness :
    mapSample.maxBounds = [[20, 122], [46, 154]] ∧ mapSample.minZoom = 5 ∧
    mapSample.maxZoom = 12 ∧ mapSample.location = default_center ∧
    mapSample.zoom_start = 5 ∧
    mapSample.maxBounds = [[20, 122], [46, 154]] ∧ mapSample.minZoom = 5 ∧
    mapSample.maxZoom = 12 ∧
    mapSample.location = [362048/10000, 1382529/10000] ∧
    mapSample.zoom_start = 5 :=
  canvas_config ⟨[], []⟩ geoSample default_center 5 mapSample mapSample
    rfl rfl

/-- C7 (counterexample).  The claim says every spreadsheet missing the
`lat` column makes the run abort before writing output.  It is false for a
spreadsheet with zero data rows: required cells are only read inside the
per-row loop, so the headers-only sheet `dfNoLatEmpty` — which has no `lat`
column — still produces a map and the output is written. -/
theorem missing_lat_cex :
    "lat" ∉ dfNoLatEmpty.columns ∧
    output_written dfNoLatEmpty geoSample = true :=
  ⟨by decide, rfl⟩

/-- C7 (amended): for every spreadsheet with at least one data row and no
`lat` column, building the map raises a `KeyError` and the run aborts
before the output file is written. -/
theorem missing_lat_aborts (df : DataFrame) (geo : GeoJsonDoc)
    (center : List ℚ) (zs : Int)
    (hlat : "lat" ∉ df.columns) (hrows : df.cells ≠ []) :
    (create_japan_map_from_excel df geo center zs).isOk = false ∧
    output_written df geo = false := by
  obtain ⟨r, rs, hcells⟩ : ∃ r rs, df.cells = r :: rs := by
    cases hcc : df.cells with
    | nil => exact absurd hcc hrows
    | cons a b => exact ⟨a, b, rfl⟩
  have hrl : rowLayers df.columns r = .error "KeyError: lat" := by
    simp [rowLayers, getCell_eq_none_of_not_mem df.columns r "lat" hlat]
  have hrows' : rowsLayers df.columns df.cells = .error "KeyError: lat" := by
    rw [hcells]
    simp [rowsLayers, hrl]
  constructor
  · cases h1 : extractBoundaryRing geo with
    | error e => simp [create_japan_map_from_excel, h1, Except.isOk, Except.toBool]
    | ok ring =>
      simp [create_japan_map_from_excel, h1, hrows', Except.isOk, Except.toBool]
  · simp only [output_written, main_run]
    cases h1 : extractBoundaryRing geo with
    | error e => simp [create_japan_map_from_excel, h1]
    | ok ring => simp [create_japan_map_from_excel, h1, hrows']

/-- C7 witness: the one-row sheet without a `lat` column aborts and writes
nothing. -/
theorem missing_lat_aborts_witness :
    (create_japan_map_from_excel dfNoLatRow geoSample default_center 5).isOk
      = false ∧
    output_written dfNoLatRow geoSample = false :=
  missing_lat_aborts dfNoLatRow geoSample default_center 5 (by decide)
    (by decide)

/-- C8 (counterexample).  The claim says every hole-ring vertex of the mask
lies in the world box regardless of the input boundary.  It is false: the
boundary ring is copied into the hole with no transformation, so the input
vertex `(200, 0)` — longitude 200, outside `[-180, 180]` — appears verbatim
in the hole of the constructed mask. -/
theorem mask_hole_out_of_box_cex :
    (create_japan_map_from_excel ⟨[], []⟩ geoOutOfBox default_center 5).map
        (fun m => m.layers.filterMap Layer.maskRings) =
      .ok [(world_ring, [[(200, 0)]])] ∧
    (create_japan_map_from_excel ⟨[], []⟩ geoOutOfBox default_center 5).map
        holeVerticesInBox = .ok false ∧
    inWorldBox (200, 0) = false :=
  ⟨rfl, rfl, rfl⟩

/-- C8 (amended): the mask applies no transformation, so the hole-ring
vertices of the constructed mask lie in the world box exactly when the
input boundary vertices already do; the outer ring is the world box
itself, whose vertices all lie in the box. -/
theorem mask_hole_in_box (geo : GeoJsonDoc) (f : Feature) (fs : List Feature)
    (ring : Ring) (rs : List Ring) (df : DataFrame) (center : List ℚ)
    (zs : Int) (m : MapCanvas)
    (hf : geo.features = f :: fs) (hc : f.geometry.coordinates = ring :: rs)
    (hbox : ring.all inWorldBox = true)
    (h : create_japan_map_from_excel df geo center zs = .ok m) :
    holeVerticesInBox m = true ∧ world_ring.all inWorldBox = true := by
  have hm := create_maskRings df geo center zs m ring
    (extractBoundaryRing_of_shape geo f fs ring rs hf hc) h
  refine ⟨?_, by decide⟩
  simp [holeVerticesInBox, hm, hbox]

/-- C8 witness: the sample boundary lies in the world box and so does the
hole of the sample mask. -/
theorem mask_hole_in_box_witness :
    holeVerticesInBox mapSample = true ∧
    world_ring.all inWorldBox = true :=
  mask_hole_in_box geoSample ⟨⟨[ringSample]⟩⟩ [] ringSample [] ⟨[], []⟩
    default_center 5 mapSample rfl rfl (by decide) rfl

/-- C9: every successfully built map has exactly one mask layer, and its
style is fixed independently of all inputs: fill color "gray", stroke
color "gray", fill opacity 0.8, and stroke weight 0. -/
theorem mask_style (geo : GeoJsonDoc) (f : Feature) (fs : List Feature)
    (ring : Ring) (rs : List Ring) (df : DataFrame) (center : List ℚ)
    (zs : Int) (m : MapCanvas)
    (hf : geo.features = f :: fs) (hc : f.geometry.coordinates = ring :: rs)
    (h : create_japan_map_from_excel df geo center zs = .ok m) :
    masksOf m.layers =
      [Layer.geoJson world_ring [ring] "マスク" "gray" "gray" (8/10 : ℚ) 0] := by
  have hms := create_masksOf df geo center zs m ring
    (extractBoundaryRing_of_shape geo f fs ring rs hf hc) h
  rw [hms]
  rfl

/-- C9 witness: the sample map has the single gray mask overlay with fill
opacity 0.8 and weight 0. -/
theorem mask_style_witness :
    masksOf mapSample.layers =
      [Layer.geoJson world_ring [ringSample] "マスク" "gray" "gray"
        (8/10 : ℚ) 0] :=
  mask_style geoSample ⟨⟨[ringSample]⟩⟩ [] ringSample [] ⟨[], []⟩
    default_center 5 mapSample rfl rfl rfl

/-- C10: a spreadsheet with zero data rows succeeds for any column set —
even with `lat`, `lon` and `info` all absent, since required cells are read
only inside the per-row loop — and the written map holds exactly the base
tile layer and the mask layer, with no markers and no circles. -/
theorem empty_sheet_succeeds (cols : List String) (geo : GeoJsonDoc)
    (f : Feature) (fs : List Feature) (ring : Ring) (rs : List Ring)
    (hf : geo.features = f :: fs)
    (hc : f.geometry.coordinates = ring :: rs) :
    (main_run ⟨cols, []⟩ geo).map
        (fun m => (m.layers, markersOf m.layers, circlesOf m.layers)) =
      .ok ([gsi_tile_layer, mask_geojson ring], [], []) ∧
    output_written ⟨cols, []⟩ geo = true := by
  have hr : rowsLayers cols [] = .ok [] := rfl
  have hcr := create_ok ⟨cols, []⟩ geo default_center default_zoom_start ring
    [] (extractBoundaryRing_of_shape geo f fs ring rs hf hc) hr
  constructor
  · simp only [main_run, hcr, Except.map, List.append_nil]
    simp [markersOf, circlesOf, List.filter, gsi_tile_layer, mask_geojson,
      Layer.isMarker, Layer.isCircle]
  · simp [output_written, main_run, hcr]

/-- C10 witness: the sheet with no columns at all still yields the
tile-plus-mask map and the output is written. -/
theorem empty_sheet_succeeds_witness :
    (main_run ⟨[], []⟩ geoSample).map
        (fun m => (m.layers, markersOf m.layers, circlesOf m.layers)) =
      .ok ([gsi_tile_layer, mask_geojson ringSample], [], []) ∧
    output_written ⟨[], []⟩ geoSample = true :=
  empty_sheet_succeeds [] geoSample ⟨⟨[ringSample]⟩⟩ [] ringSample [] rfl rfl

end NihonMapMarker
